import Mathlib

/-!
# Verification of the VenkyAI session/streaming orchestrator (App.tsx)

Shallow embedding of the React/Tauri front-end orchestrator: the component
state (`useState` hooks plus the `captureInterval` ref) becomes an explicit
`AppState` record, each event handler and user action becomes a function
`AppState → … → AppState`, and each fallible backend `invoke` call is
modelled by an outcome parameter (`Bool` or `Except String _`) supplied by
the environment.  Side effects that the claims observe — commands issued to
the backend, `console.error` diagnostics, `alert` popups, and the set of
live `setInterval` timers — are tracked as explicit fields of the state.
-/

namespace VenkyAI

/-- Session status union type `'Active' | 'Paused' | 'Ended'` from App.tsx. -/
inductive SessionStatus where
  | Active
  | Paused
  | Ended
deriving DecidableEq, Repr

/-- `interface TranscriptEntry` from App.tsx. -/
structure TranscriptEntry where
  role : String
  content : String
  timestamp : String
deriving DecidableEq, Repr

/-- `interface Session` from App.tsx. -/
structure Session where
  id : String
  title : String
  purpose : String
  status : SessionStatus
  start_time : String
  end_time : Option String
deriving DecidableEq, Repr

/-- The orchestrator state: every `useState` hook of the `App` component that
the orchestration logic touches, the `captureInterval` ref, plus explicit
observation fields for the effects the handlers perform (backend commands
issued, `console.error` lines, `alert` popups) and the set of interval
timers currently live in the runtime (`liveTimers`, with `nextTimerId` the
supply of fresh handles returned by `setInterval`). -/
structure AppState where
  isSessionActive : Bool
  sessionInfo : Option Session
  transcript : List TranscriptEntry
  isRecording : Bool
  isCapturing : Bool
  suggestions : List String
  isStreaming : Bool
  streamingText : String
  isTranscribing : Bool
  overlayVisible : Bool
  showSetup : Bool
  captureInterval : Option Nat
  liveTimers : List Nat
  nextTimerId : Nat
  commandsIssued : List String
  consoleErrors : List String
  alerts : List String
deriving DecidableEq, Repr

/-- Initial component state: the `useState` initial values of App.tsx
(`overlayVisible` starts `true`, everything else inactive/empty) and a
`null` capture-interval ref. -/
def initState : AppState where
  isSessionActive := false
  sessionInfo := none
  transcript := []
  isRecording := false
  isCapturing := false
  suggestions := []
  isStreaming := false
  streamingText := ""
  isTranscribing := false
  overlayVisible := true
  showSetup := false
  captureInterval := none
  liveTimers := []
  nextTimerId := 0
  commandsIssued := []
  consoleErrors := []
  alerts := []

/-- `payload.includes('[SILENCE]')` from the `llm-stream-end` and
`live-suggestion` handlers: substring containment of the silence sentinel. -/
def containsSilence (s : String) : Bool :=
  decide ("[SILENCE]".toList <:+: s.toList)

/-- The three llm streaming events consumed by the `useEffect` listeners:
`llm-token` (string payload), `llm-stream-start`, `llm-stream-end`
(string payload). -/
inductive Ev where
  | token (payload : String)
  | streamStart
  | streamEnd (payload : String)
deriving DecidableEq, Repr

/-- The `llm-token` listener:
`setStreamingText(prev => prev + event.payload)`. -/
def onToken (s : AppState) (payload : String) : AppState :=
  { s with streamingText := s.streamingText ++ payload }

/-- The `llm-stream-start` listener: `setIsStreaming(true)` then
`setStreamingText('')`. -/
def onStreamStart (s : AppState) : AppState :=
  { s with isStreaming := true, streamingText := "" }

/-- The `llm-stream-end` listener: `setIsStreaming(false)`; if
`event.payload` is truthy (non-empty) and does not include `'[SILENCE]'`,
append it to `suggestions`; then `setStreamingText('')`. -/
def onStreamEnd (s : AppState) (payload : String) : AppState :=
  let s1 := { s with isStreaming := false }
  let s2 :=
    if payload ≠ "" ∧ containsSilence payload = false then
      { s1 with suggestions := s1.suggestions ++ [payload] }
    else s1
  { s2 with streamingText := "" }

/-- Dispatch one llm streaming event to its listener. -/
def handleEvent (s : AppState) : Ev → AppState
  | Ev.token p => onToken s p
  | Ev.streamStart => onStreamStart s
  | Ev.streamEnd p => onStreamEnd s p

/-- Deliver a sequence of llm streaming events in order. -/
def processEvents (s : AppState) (evs : List Ev) : AppState :=
  evs.foldl handleEvent s

/-- The `overlay-visibility` listener: `setOverlayVisible(event.payload)`. -/
def onOverlayVisibility (s : AppState) (b : Bool) : AppState :=
  { s with overlayVisible := b }

/-- The `session-auto-started` listener: adopts the payload session, marks
the session active, clears the transcript, and sets the recording and
capturing flags, issuing no backend command. -/
def onSessionAutoStarted (s : AppState) (sess : Session) : AppState :=
  { s with sessionInfo := some sess
           isSessionActive := true
           transcript := []
           isRecording := true
           isCapturing := true }

/-- The `transcription-chunk` listener: synchronously appends a
`transcription`-role entry to the transcript, then fires
`invoke('add_transcript_entry', …)` with a `.catch` that logs the failure to
the console.  `now` models `new Date().toLocaleTimeString()`; `persistOk`
models whether the background invoke resolves or rejects. -/
def onTranscriptionChunk (s : AppState) (text now : String) (persistOk : Bool) :
    AppState :=
  let s1 := { s with transcript :=
      s.transcript ++ [TranscriptEntry.mk "transcription" text now] }
  let s2 := { s1 with commandsIssued := s1.commandsIssued ++ ["add_transcript_entry"] }
  if persistOk then s2
  else { s2 with consoleErrors :=
      s2.consoleErrors ++ ["Failed to save background transcript:"] }

/-- The `live-suggestion` listener: appends the payload to `suggestions`
when it is non-empty and does not include the silence sentinel. -/
def onLiveSuggestion (s : AppState) (text : String) : AppState :=
  if text ≠ "" ∧ containsSilence text = false then
    { s with suggestions := s.suggestions ++ [text] }
  else s

/-- `startSession(title, purpose, context)`: issues `create_session`; on
success stores the returned session, activates it, clears the transcript and
closes the setup prompt; on failure logs the error, closes the setup prompt
and raises an `alert`.  `res` models the outcome of the awaited invoke. -/
def startSession (s : AppState) (title purpose context : String)
    (res : Except String Session) : AppState :=
  let s0 := { s with commandsIssued := s.commandsIssued ++ ["create_session"] }
  match res with
  | Except.ok info =>
    { s0 with sessionInfo := some info
              isSessionActive := true
              transcript := []
              showSetup := false }
  | Except.error e =>
    { s0 with consoleErrors := s0.consoleErrors ++ ["Failed to start session: " ++ e]
              showSetup := false
              alerts := s0.alerts ++ ["Failed to start session: " ++ e] }

/-- Outcomes of the backend calls `endSession` may issue: `end_session`, and
the best-effort `stop_audio_capture` / `stop_system_audio_capture`. -/
structure EndEnv where
  endOk : Bool
  stopAudioOk : Bool
  stopSystemAudioOk : Bool
deriving DecidableEq, Repr

/-- `endSession()`: awaits `end_session`; a rejection jumps to the `catch`
block (which only logs), so the entire cleanup sequence — deactivating the
session, stopping audio and system-audio capture, clearing the capture
interval, and clearing suggestions and the streaming buffer — runs only when
`end_session` resolves.  The two stop commands carry their own `.catch`
(logged, not propagated). -/
def endSession (s : AppState) (env : EndEnv) : AppState :=
  let s0 := { s with commandsIssued := s.commandsIssued ++ ["end_session"] }
  if env.endOk = false then
    { s0 with consoleErrors := s0.consoleErrors ++ ["Failed to end session:"] }
  else
    let s1 := { s0 with isSessionActive := false }
    let s2 :=
      if s1.isRecording then
        let sa := { s1 with commandsIssued := s1.commandsIssued ++ ["stop_audio_capture"] }
        let sb :=
          if env.stopAudioOk then sa
          else { sa with consoleErrors := sa.consoleErrors ++ ["stop_audio_capture error"] }
        { sb with isRecording := false }
      else s1
    let s3 :=
      if s2.isCapturing then
        let sa := { s2 with commandsIssued := s2.commandsIssued ++ ["stop_system_audio_capture"] }
        let sb :=
          if env.stopSystemAudioOk then sa
          else { sa with consoleErrors := sa.consoleErrors ++ ["stop_system_audio_capture error"] }
        { sb with isCapturing := false }
      else s2
    let s4 :=
      match s3.captureInterval with
      | some h => { s3 with liveTimers := s3.liveTimers.erase h, captureInterval := none }
      | none => s3
    { s4 with suggestions := [], streamingText := "" }

/-- `toggleRecording()`: stops or starts audio capture depending on
`isRecording`; a rejected invoke jumps to the `catch` (logged) before the
flag is flipped. -/
def toggleRecording (s : AppState) (ok : Bool) : AppState :=
  if s.isRecording then
    let s0 := { s with commandsIssued := s.commandsIssued ++ ["stop_audio_capture"] }
    if ok then { s0 with isRecording := false }
    else { s0 with consoleErrors := s0.consoleErrors ++ ["Audio error:"] }
  else
    let s0 := { s with commandsIssued := s.commandsIssued ++ ["start_audio_capture"] }
    if ok then { s0 with isRecording := true }
    else { s0 with consoleErrors := s0.consoleErrors ++ ["Audio error:"] }

/-- The `try { … } catch (e) { console.error(msg, e) }` pattern: the first
component of `r` is the state produced so far, the second the exception (if
any) that reached the `catch`; the handler logs the exception and swallows
it, so the escaping exception of the whole block is always `none`. -/
def tryCatchLog (msg : String) (r : AppState × Option String) :
    AppState × Option String :=
  match r with
  | (st, some e) =>
    ({ st with consoleErrors := st.consoleErrors ++ [msg ++ e] }, none)
  | (st, none) => (st, none)

/-- Outcomes of the backend calls `transcribeAudio` may issue:
`transcribe_audio` (returns a string or rejects) and the awaited
`add_transcript_entry` persist; `now` models the timestamp. -/
structure TranscribeEnv where
  transcribeResult : Except String String
  persistResult : Except String Unit
  now : String
deriving Repr

/-- `transcribeAudio()`: sets `isTranscribing`, awaits `transcribe_audio`;
a non-empty result is appended to the transcript and — when a session is
active — persisted through an awaited `add_transcript_entry`.  Any rejection
of either awaited invoke propagates into the function's own `try/catch`,
where it is logged; the `finally` clears `isTranscribing`.  The second
component of the result is the exception escaping to the caller of
`transcribeAudio` (always `none`, since the `catch` swallows). -/
def transcribeAudio (s : AppState) (env : TranscribeEnv) :
    AppState × Option String :=
  let s0 := { s with isTranscribing := true
                     commandsIssued := s.commandsIssued ++ ["transcribe_audio"] }
  let inner : AppState × Option String :=
    match env.transcribeResult with
    | Except.error e => (s0, some e)
    | Except.ok text =>
      if text ≠ "" then
        let s1 := { s0 with transcript :=
            s0.transcript ++ [TranscriptEntry.mk "transcription" text env.now] }
        if s1.isSessionActive then
          let s2 := { s1 with commandsIssued :=
              s1.commandsIssued ++ ["add_transcript_entry"] }
          match env.persistResult with
          | Except.error e => (s2, some e)
          | Except.ok _ => (s2, none)
        else (s1, none)
      else (s0, none)
  let caught := tryCatchLog "Transcription error: " inner
  ({ caught.1 with isTranscribing := false }, caught.2)

/-- `toggleCapture()`: when capturing, clears the interval (if any) and
resets the flag; otherwise sets the flag and installs a fresh
`setInterval` handle.  Installing a handle appends it to the runtime's live
timer set; clearing erases it. -/
def toggleCapture (s : AppState) : AppState :=
  if s.isCapturing then
    let s0 :=
      match s.captureInterval with
      | some h => { s with liveTimers := s.liveTimers.erase h, captureInterval := none }
      | none => s
    { s0 with isCapturing := false }
  else
    let h := s.nextTimerId
    { s with isCapturing := true
             captureInterval := some h
             liveTimers := s.liveTimers ++ [h]
             nextTimerId := h + 1 }

/-- One firing of the interval callback installed by `toggleCapture`:
`invoke('capture_screen')` inside its own `try/catch`, which logs a failure.
The second component is the exception escaping the callback (always `none`:
the `catch` swallows it, so the schedule is never torn down by a failure). -/
def captureTick (s : AppState) (ok : Bool) : AppState × Option String :=
  let s0 := { s with commandsIssued := s.commandsIssued ++ ["capture_screen"] }
  let inner : AppState × Option String :=
    if ok then (s0, none) else (s0, some "capture failed")
  tryCatchLog "Capture error:" inner

/-- Repeated firings of the capture interval, one per element of `outcomes`. -/
def runTicks (s : AppState) (outcomes : List Bool) : AppState :=
  outcomes.foldl (fun st ok => (captureTick st ok).1) s

/-- Spec-side notion used by the streaming claims: the concatenation of
token fragments in emission order. -/
def concatTokens (ts : List String) : String :=
  ts.foldl (fun a b => a ++ b) ""

/-- A concrete session record, used for closed instantiations. -/
def sampleSession : Session :=
  Session.mk "s1" "Standup" "meeting" SessionStatus.Active "t0" none

/-- A concrete mid-session state: session active, audio recording, screen
capture running with interval handle `0` outstanding. -/
def sRec : AppState :=
  { initState with
      isSessionActive := true
      sessionInfo := some sampleSession
      isRecording := true
      isCapturing := true
      captureInterval := some 0
      liveTimers := [0]
      nextTimerId := 1 }

/-- A concrete active-session state with audio recording but no screen
capture, used for the manual-transcription scenarios. -/
def sActive : AppState :=
  { initState with
      isSessionActive := true
      sessionInfo := some sampleSession
      isRecording := true }

/-- A `transcribeAudio` environment in which `transcribe_audio` returns
"hello" and the awaited `add_transcript_entry` persist rejects. -/
def envPersistFail : TranscribeEnv :=
  TranscribeEnv.mk (Except.ok "hello") (Except.error "db down") "t1"

/-- One orchestrator step: any user action, backend-event delivery, or
interval firing, with arbitrary backend outcomes. -/
inductive Step : AppState → AppState → Prop where
  | ev (s : AppState) (e : Ev) : Step s (handleEvent s e)
  | visibility (s : AppState) (b : Bool) : Step s (onOverlayVisibility s b)
  | autoStart (s : AppState) (sess : Session) : Step s (onSessionAutoStarted s sess)
  | chunk (s : AppState) (t now : String) (ok : Bool) :
      Step s (onTranscriptionChunk s t now ok)
  | liveSugg (s : AppState) (t : String) : Step s (onLiveSuggestion s t)
  | startSess (s : AppState) (title purpose context : String)
      (res : Except String Session) : Step s (startSession s title purpose context res)
  | endSess (s : AppState) (env : EndEnv) : Step s (endSession s env)
  | toggleRec (s : AppState) (ok : Bool) : Step s (toggleRecording s ok)
  | transcribe (s : AppState) (env : TranscribeEnv) : Step s (transcribeAudio s env).1
  | toggleCap (s : AppState) : Step s (toggleCapture s)
  | tick (s : AppState) (ok : Bool) : Step s (captureTick s ok).1

/-- States reachable from the initial component state by orchestrator steps. -/
def Reachable (s : AppState) : Prop :=
  Relation.ReflTransGen Step initState s

/-- The timer bookkeeping invariant: the live interval timers are exactly the
one held by the `captureInterval` ref (so never more than one), and when the
capturing flag is down the ref is `null`. -/
def TimerInv (s : AppState) : Prop :=
  s.liveTimers = s.captureInterval.toList ∧
    (s.isCapturing = false → s.captureInterval = none)

theorem tryCatchLog_snd (m : String) (r : AppState × Option String) :
    (tryCatchLog m r).2 = none := by
  obtain ⟨st, o⟩ := r
  cases o <;> rfl

theorem tryCatchLog_some (m : String) (st : AppState) (e : String) :
    tryCatchLog m (st, some e) =
      ({ st with consoleErrors := st.consoleErrors ++ [m ++ e] }, none) := rfl

theorem tryCatchLog_none (m : String) (st : AppState) :
    tryCatchLog m (st, none) = (st, none) := rfl

theorem tryCatchLog_fst_liveTimers (m : String) (r : AppState × Option String) :
    (tryCatchLog m r).1.liveTimers = r.1.liveTimers := by
  obtain ⟨st, o⟩ := r
  cases o <;> rfl

theorem tryCatchLog_fst_captureInterval (m : String) (r : AppState × Option String) :
    (tryCatchLog m r).1.captureInterval = r.1.captureInterval := by
  obtain ⟨st, o⟩ := r
  cases o <;> rfl

theorem tryCatchLog_fst_isCapturing (m : String) (r : AppState × Option String) :
    (tryCatchLog m r).1.isCapturing = r.1.isCapturing := by
  obtain ⟨st, o⟩ := r
  cases o <;> rfl

theorem tryCatchLog_fst_transcript (m : String) (r : AppState × Option String) :
    (tryCatchLog m r).1.transcript = r.1.transcript := by
  obtain ⟨st, o⟩ := r
  cases o <;> rfl

theorem tryCatchLog_fst_commandsIssued (m : String) (r : AppState × Option String) :
    (tryCatchLog m r).1.commandsIssued = r.1.commandsIssued := by
  obtain ⟨st, o⟩ := r
  cases o <;> rfl

theorem onStreamEnd_streamingText (s : AppState) (p : String) :
    (onStreamEnd s p).streamingText = "" := by
  unfold onStreamEnd
  dsimp only

theorem onStreamEnd_isStreaming (s : AppState) (p : String) :
    (onStreamEnd s p).isStreaming = false := by
  unfold onStreamEnd
  try dsimp only
  split <;> rfl

theorem onStreamEnd_suggestions (s : AppState) (p : String) :
    (onStreamEnd s p).suggestions =
      (if p ≠ "" ∧ containsSilence p = false
       then s.suggestions ++ [p] else s.suggestions) := by
  unfold onStreamEnd
  try dsimp only
  split <;> rfl

/-- Delivering only token events just appends their payloads, in order, to
the streaming buffer; no other field changes. -/
theorem processEvents_token_eq (ts : List String) (s : AppState) :
    processEvents s (ts.map Ev.token) =
      { s with streamingText := ts.foldl (fun a b => a ++ b) s.streamingText } := by
  induction ts generalizing s with
  | nil =>
    cases s
    rfl
  | cons t ts ih => exact ih (onToken s t)

theorem captureTick_spec (s : AppState) (ok : Bool) :
    (captureTick s ok).2 = none ∧
    (captureTick s ok).1.captureInterval = s.captureInterval ∧
    (captureTick s ok).1.liveTimers = s.liveTimers ∧
    (captureTick s ok).1.commandsIssued = s.commandsIssued ++ ["capture_screen"] ∧
    (captureTick s ok).1.consoleErrors =
      (if ok then s.consoleErrors
       else s.consoleErrors ++ ["Capture error:" ++ "capture failed"]) := by
  cases ok <;>
    simp [captureTick, tryCatchLog_none, tryCatchLog_some]

theorem runTicks_timers (s : AppState) (outcomes : List Bool) :
    (runTicks s outcomes).captureInterval = s.captureInterval ∧
    (runTicks s outcomes).liveTimers = s.liveTimers := by
  induction outcomes generalizing s with
  | nil => exact ⟨rfl, rfl⟩
  | cons ok rest ih =>
    have hstep := captureTick_spec s ok
    have hrest := ih (captureTick s ok).1
    refine ⟨?_, ?_⟩
    · calc (runTicks s (ok :: rest)).captureInterval
          = (runTicks (captureTick s ok).1 rest).captureInterval := rfl
        _ = (captureTick s ok).1.captureInterval := hrest.1
        _ = s.captureInterval := hstep.2.1
    · calc (runTicks s (ok :: rest)).liveTimers
          = (runTicks (captureTick s ok).1 rest).liveTimers := rfl
        _ = (captureTick s ok).1.liveTimers := hrest.2
        _ = s.liveTimers := hstep.2.2.1

theorem timerInv_init : TimerInv initState := by
  constructor <;> simp [initState, TimerInv]

theorem timerInv_step {s s' : AppState} (hs : TimerInv s) (hstep : Step s s') :
    TimerInv s' := by
  obtain ⟨hlist, hflag⟩ := hs
  cases hstep with
  | ev e =>
    cases e <;>
      · unfold handleEvent onToken onStreamStart onStreamEnd TimerInv
        dsimp only
        repeat' split
        all_goals simp_all [TimerInv]
  | visibility b =>
    unfold onOverlayVisibility TimerInv
    simp_all [TimerInv]
  | autoStart sess =>
    unfold onSessionAutoStarted TimerInv
    simp_all [TimerInv]
  | chunk t now ok =>
    unfold onTranscriptionChunk TimerInv
    try dsimp only
    repeat' split
    all_goals simp_all [TimerInv]
  | liveSugg t =>
    unfold onLiveSuggestion TimerInv
    try dsimp only
    repeat' split
    all_goals simp_all [TimerInv]
  | startSess title purpose context res =>
    unfold startSession TimerInv
    try dsimp only
    repeat' split
    all_goals simp_all [TimerInv]
  | endSess env =>
    unfold endSession TimerInv
    try dsimp only
    repeat' split
    all_goals simp_all [TimerInv, List.erase_cons_head]
  | toggleRec ok =>
    unfold toggleRecording TimerInv
    try dsimp only
    repeat' split
    all_goals simp_all [TimerInv]
  | transcribe env =>
    unfold transcribeAudio TimerInv
    try dsimp only
    simp only [tryCatchLog_fst_liveTimers, tryCatchLog_fst_captureInterval,
      tryCatchLog_fst_isCapturing]
    refine ⟨?_, ?_⟩ <;> (repeat' split) <;> simp_all
  | toggleCap =>
    unfold toggleCapture TimerInv
    try dsimp only
    repeat' split
    all_goals simp_all [TimerInv]
  | tick ok =>
    unfold captureTick TimerInv
    try dsimp only
    repeat' split
    all_goals simp_all [TimerInv, tryCatchLog_none, tryCatchLog_some]

theorem timerInv_reachable {s : AppState} (h : Reachable s) : TimerInv s := by
  induction h with
  | refl => exact timerInv_init
  | tail _ hstep ih => exact timerInv_step ih hstep

/-- C3: on a `generation-end` event with payload `p`, the streaming flag
becomes false and the buffer is reset to the empty string in all cases, and
exactly one conversation item with text `p` is appended to the suggestions
log iff `p` is non-empty and does not contain the silence sentinel
`"[SILENCE]"`. -/
theorem C3_streamEnd_finalizes (s : AppState) (p : String) :
    (onStreamEnd s p).isStreaming = false ∧
    (onStreamEnd s p).streamingText = "" ∧
    (onStreamEnd s p).suggestions =
      (if p ≠ "" ∧ containsSilence p = false
       then s.suggestions ++ [p] else s.suggestions) :=
  ⟨onStreamEnd_isStreaming s p, onStreamEnd_streamingText s p,
    onStreamEnd_suggestions s p⟩

/-- C6: on a `session-auto-started` event carrying session `sess`, from any
prior state, the handler makes `sess` the current session, sets the
session-active flag, clears the transcript log, sets both the recording and
the capture flag, and issues no backend command at all (in particular no
`start_audio_capture` or capture-start command). -/
theorem C6_autoStart_adopts (s : AppState) (sess : Session) :
    (onSessionAutoStarted s sess).sessionInfo = some sess ∧
    (onSessionAutoStarted s sess).isSessionActive = true ∧
    (onSessionAutoStarted s sess).transcript = [] ∧
    (onSessionAutoStarted s sess).isRecording = true ∧
    (onSessionAutoStarted s sess).isCapturing = true ∧
    (onSessionAutoStarted s sess).commandsIssued = s.commandsIssued :=
  ⟨rfl, rfl, rfl, rfl, rfl, rfl⟩

/-- C7: on a `transcription-chunk` event with text `t`, a
`transcription`-role entry with content `t` is appended to the in-memory
transcript synchronously and the background persist command is issued;
whether or not the persist succeeds, the entry stays in the transcript and
nothing is surfaced to the user (suggestions and alerts unchanged) — a
failure is only logged to the console. -/
theorem C7_chunk_fire_and_forget (s : AppState) (t now : String) (ok : Bool) :
    (onTranscriptionChunk s t now ok).transcript =
      s.transcript ++ [TranscriptEntry.mk "transcription" t now] ∧
    (onTranscriptionChunk s t now ok).commandsIssued =
      s.commandsIssued ++ ["add_transcript_entry"] ∧
    (onTranscriptionChunk s t now ok).suggestions = s.suggestions ∧
    (onTranscriptionChunk s t now ok).alerts = s.alerts ∧
    (onTranscriptionChunk s t now ok).consoleErrors =
      (if ok then s.consoleErrors
       else s.consoleErrors ++ ["Failed to save background transcript:"]) := by
  cases ok <;> exact ⟨rfl, rfl, rfl, rfl, rfl⟩

/-- C8: for two consecutive `generation-start` events with no intervening
`generation-end`, with any tokens in between: the buffer after the first
start plus the tokens is their concatenation, and after the second start the
buffer is the empty string — the accumulated partial content is discarded. -/
theorem C8_second_start_resets (s : AppState) (ts : List String) :
    (processEvents s ([Ev.streamStart] ++ ts.map Ev.token)).streamingText =
      concatTokens ts ∧
    (processEvents s ([Ev.streamStart] ++ ts.map Ev.token ++ [Ev.streamStart])).streamingText =
      "" := by
  constructor
  · have h := processEvents_token_eq ts (onStreamStart s)
    calc (processEvents s ([Ev.streamStart] ++ ts.map Ev.token)).streamingText
        = (processEvents (onStreamStart s) (ts.map Ev.token)).streamingText := rfl
      _ = ts.foldl (fun a b => a ++ b) (onStreamStart s).streamingText := by rw [h]
      _ = concatTokens ts := rfl
  · have : processEvents s ([Ev.streamStart] ++ ts.map Ev.token ++ [Ev.streamStart]) =
        onStreamStart (processEvents s ([Ev.streamStart] ++ ts.map Ev.token)) := by
      simp [processEvents, List.foldl_append, handleEvent]
    rw [this]
    rfl

/-- C1, counterexample: from a state that is recording with an outstanding
capture interval, a failing `end_session` command makes `endSession()` jump
to its `catch` before any cleanup runs, so the claim "after every
`endSession()` the recording flag is false and no capture timer handle is
outstanding, including when the backend command fails" is false: here
`isRecording` stays `true` and `captureInterval` stays `some 0`. -/
theorem C1_counterexample :
    ¬ ((endSession sRec (EndEnv.mk false true true)).isRecording = false ∧
       (endSession sRec (EndEnv.mk false true true)).captureInterval = none) := by
  decide

/-- C1, amended: when the backend `end_session` command succeeds,
`endSession()` leaves `isRecording = false` and no outstanding capture
interval; when the command fails, the whole cleanup is skipped — the error
is only logged and `isRecording` and `captureInterval` are left exactly as
they were. -/
theorem C1_endSession_cleanup (s : AppState) (env : EndEnv) :
    (env.endOk = true →
      (endSession s env).isRecording = false ∧
      (endSession s env).captureInterval = none) ∧
    (env.endOk = false →
      (endSession s env).isRecording = s.isRecording ∧
      (endSession s env).captureInterval = s.captureInterval) := by
  obtain ⟨eo, sa, ss⟩ := env
  cases eo with
  | false =>
    refine ⟨fun h => by simp at h, fun _ => ?_⟩
    exact ⟨rfl, rfl⟩
  | true =>
    refine ⟨fun _ => ?_, fun h => by simp at h⟩
    unfold endSession
    try dsimp only
    repeat' split
    all_goals simp_all

/-- C1 witness: the amended theorem applied at the concrete recording state
`sRec`, once with a succeeding and once with a failing `end_session`. -/
theorem C1_witness :
    ((endSession sRec (EndEnv.mk true true true)).isRecording = false ∧
     (endSession sRec (EndEnv.mk true true true)).captureInterval = none) ∧
    ((endSession sRec (EndEnv.mk false true true)).isRecording = sRec.isRecording ∧
     (endSession sRec (EndEnv.mk false true true)).captureInterval = sRec.captureInterval) :=
  ⟨(C1_endSession_cleanup sRec (EndEnv.mk true true true)).1 rfl,
   (C1_endSession_cleanup sRec (EndEnv.mk false true true)).2 rfl⟩

/-- C2, counterexample: the `llm-stream-end` handler appends the event's
final payload, not the concatenation of the streamed tokens.  After
`generation-start`, token `"Hi"`, `generation-end("Bye")`, the finalized
suggestion is `"Bye"` while the tokens concatenate to `"Hi"`, refuting the
claim that the finalized item's text equals the token concatenation. -/
theorem C2_counterexample :
    (processEvents initState
        [Ev.streamStart, Ev.token "Hi", Ev.streamEnd "Bye"]).suggestions = ["Bye"] ∧
    concatTokens ["Hi"] = "Hi" ∧
    ("Bye" : String) ≠ "Hi" := by
  refine ⟨rfl, rfl, by decide⟩

/-- C2, amended: for every sequence `generation-start`, token fragments,
`generation-end(p)`: while streaming, the buffer holds exactly the
concatenation of the fragments in emission order; the item finalized into
the suggestions log is the final payload `p` itself (appended iff `p` is
non-empty and does not contain the silence sentinel — in particular no item
is added on a silence payload); and the streaming buffer is empty afterwards
in every case. -/
theorem C2_stream_round (s : AppState) (ts : List String) (p : String) :
    (processEvents s ([Ev.streamStart] ++ ts.map Ev.token)).streamingText =
      concatTokens ts ∧
    (processEvents s ([Ev.streamStart] ++ ts.map Ev.token ++ [Ev.streamEnd p])).suggestions =
      (if p ≠ "" ∧ containsSilence p = false
       then s.suggestions ++ [p] else s.suggestions) ∧
    (processEvents s ([Ev.streamStart] ++ ts.map Ev.token ++ [Ev.streamEnd p])).streamingText =
      "" := by
  have hmid := processEvents_token_eq ts (onStreamStart s)
  have hsplit : processEvents s ([Ev.streamStart] ++ ts.map Ev.token ++ [Ev.streamEnd p]) =
      onStreamEnd (processEvents s ([Ev.streamStart] ++ ts.map Ev.token)) p := by
    simp [processEvents, List.foldl_append, handleEvent]
  refine ⟨?_, ?_, ?_⟩
  · calc (processEvents s ([Ev.streamStart] ++ ts.map Ev.token)).streamingText
        = (processEvents (onStreamStart s) (ts.map Ev.token)).streamingText := rfl
      _ = ts.foldl (fun a b => a ++ b) (onStreamStart s).streamingText := by rw [hmid]
      _ = concatTokens ts := rfl
  · rw [hsplit, onStreamEnd_suggestions]
    have hsugg : (processEvents s ([Ev.streamStart] ++ ts.map Ev.token)).suggestions =
        s.suggestions := by
      calc (processEvents s ([Ev.streamStart] ++ ts.map Ev.token)).suggestions
          = (processEvents (onStreamStart s) (ts.map Ev.token)).suggestions := rfl
        _ = s.suggestions := by rw [hmid]; rfl
    rw [hsugg]
  · rw [hsplit, onStreamEnd_streamingText]

/-- C4, counterexample: with a session active and `transcribe_audio`
returning "hello", a failing `add_transcript_entry` persist does NOT
propagate to the caller of `transcribeAudio`: the call completes normally
(the escaping exception is `none`) because the failure is consumed by
`transcribeAudio`'s own `try/catch`, which logs it to the console — refuting
the claim that the persist failure propagates to the immediate caller of the
operation rather than being swallowed. -/
theorem C4_counterexample :
    (transcribeAudio sActive envPersistFail).2 = none ∧
    (transcribeAudio sActive envPersistFail).1.consoleErrors =
      sActive.consoleErrors ++ ["Transcription error: db down"] := by
  refine ⟨rfl, rfl⟩

/-- C4, amended: for every manual transcription performed while a session is
Active and `transcribe_audio` returns non-empty text, the synchronous
`add_transcript_entry` persist call is issued; its failure propagates only
as far as `transcribeAudio`'s own `try/catch`, which logs it — the caller of
`transcribeAudio` observes normal completion, the already-appended
transcript entry is kept, and `isTranscribing` is reset by the `finally`. -/
theorem C4_manual_persist (s : AppState) (env : TranscribeEnv) (t e : String)
    (hact : s.isSessionActive = true)
    (htr : env.transcribeResult = Except.ok t)
    (ht : t ≠ "")
    (hp : env.persistResult = Except.error e) :
    (transcribeAudio s env).1.commandsIssued =
      s.commandsIssued ++ ["transcribe_audio", "add_transcript_entry"] ∧
    (transcribeAudio s env).1.transcript =
      s.transcript ++ [TranscriptEntry.mk "transcription" t env.now] ∧
    (transcribeAudio s env).1.consoleErrors =
      s.consoleErrors ++ ["Transcription error: " ++ e] ∧
    (transcribeAudio s env).2 = none ∧
    (transcribeAudio s env).1.isTranscribing = false := by
  obtain ⟨tr, pr, now⟩ := env
  simp only at htr hp
  subst htr hp
  unfold transcribeAudio
  try dsimp only
  rw [if_pos ht]
  simp only [hact, if_true]
  try dsimp only
  simp [tryCatchLog_some]

/-- C4 witness: the amended theorem applied at the concrete active-session
state `sActive` with environment `envPersistFail`. -/
theorem C4_witness :
    (transcribeAudio sActive envPersistFail).1.commandsIssued =
      sActive.commandsIssued ++ ["transcribe_audio", "add_transcript_entry"] ∧
    (transcribeAudio sActive envPersistFail).1.transcript =
      sActive.transcript ++
        [TranscriptEntry.mk "transcription" "hello" envPersistFail.now] ∧
    (transcribeAudio sActive envPersistFail).1.consoleErrors =
      sActive.consoleErrors ++ ["Transcription error: " ++ "db down"] ∧
    (transcribeAudio sActive envPersistFail).2 = none ∧
    (transcribeAudio sActive envPersistFail).1.isTranscribing = false :=
  C4_manual_persist sActive envPersistFail "hello" "db down" rfl rfl
    (by decide) rfl

/-- C5: when `create_session` fails in `startSession`, no session becomes
active (the session-active flag stays false from an inactive state and
`sessionInfo` is untouched), the error is reported to the caller via an
alert, and the setup prompt closes; the setup prompt also closes on every
outcome, success or failure. -/
theorem C5_startSession_failure (s : AppState)
    (title purpose context e : String)
    (h : s.isSessionActive = false) :
    (startSession s title purpose context (Except.error e)).isSessionActive = false ∧
    (startSession s title purpose context (Except.error e)).sessionInfo =
      s.sessionInfo ∧
    (startSession s title purpose context (Except.error e)).alerts =
      s.alerts ++ ["Failed to start session: " ++ e] ∧
    ∀ res : Except String Session,
      (startSession s title purpose context res).showSetup = false := by
  refine ⟨?_, rfl, rfl, ?_⟩
  · exact h
  · intro res
    cases res <;> rfl

/-- C5 witness: the theorem applied at the initial (inactive) state with a
concrete failing `create_session`. -/
theorem C5_witness :
    (startSession initState "Sync" "meeting" "" (Except.error "boom")).isSessionActive =
      false ∧
    (startSession initState "Sync" "meeting" "" (Except.error "boom")).sessionInfo =
      initState.sessionInfo ∧
    (startSession initState "Sync" "meeting" "" (Except.error "boom")).alerts =
      initState.alerts ++ ["Failed to start session: " ++ "boom"] ∧
    ∀ res : Except String Session,
      (startSession initState "Sync" "meeting" "" res).showSetup = false :=
  C5_startSession_failure initState "Sync" "meeting" "" "boom" rfl

/-- C9: each firing of the capture interval issues one `capture_screen`
command and a failure is caught and logged (the escaping exception is
`none`) without touching the timer bookkeeping, so any number of firings
with any outcomes leaves the interval handle in place (the schedule runs
until an explicit stop); moreover, invoking the capture toggle while the
capture flag is already set never installs a new timer (the `setInterval`
supply is untouched and the live-timer count cannot grow), and in every
reachable orchestrator state at most one timer handle is outstanding. -/
theorem C9_capture_schedule :
    (∀ (s : AppState) (ok : Bool),
      (captureTick s ok).2 = none ∧
      (captureTick s ok).1.captureInterval = s.captureInterval ∧
      (captureTick s ok).1.liveTimers = s.liveTimers ∧
      (captureTick s ok).1.commandsIssued = s.commandsIssued ++ ["capture_screen"]) ∧
    (∀ (s : AppState) (outcomes : List Bool),
      (runTicks s outcomes).captureInterval = s.captureInterval ∧
      (runTicks s outcomes).liveTimers = s.liveTimers) ∧
    (∀ s : AppState, s.isCapturing = true →
      (toggleCapture s).nextTimerId = s.nextTimerId ∧
      (toggleCapture s).liveTimers.length ≤ s.liveTimers.length) ∧
    (∀ s : AppState, Reachable s → s.liveTimers.length ≤ 1) := by
  refine ⟨?_, ?_, ?_, ?_⟩
  · intro s ok
    have h := captureTick_spec s ok
    exact ⟨h.1, h.2.1, h.2.2.1, h.2.2.2.1⟩
  · intro s outcomes
    exact runTicks_timers s outcomes
  · intro s h
    unfold toggleCapture
    rw [h]
    try dsimp only
    cases hcap : s.captureInterval with
    | none =>
      try dsimp only
      exact ⟨rfl, le_refl _⟩
    | some k =>
      try dsimp only
      exact ⟨rfl, List.Sublist.length_le (List.erase_sublist _ _)⟩
  · intro s h
    have hinv := (timerInv_reachable h).1
    rw [hinv]
    cases s.captureInterval <;> simp

/-- C9 witness: the theorem's components applied at concrete states — a
failing tick at the initial state, the toggle at the capturing state `sRec`,
and the reachable initial state. -/
theorem C9_witness :
    (captureTick initState false).2 = none ∧
    (toggleCapture sRec).nextTimerId = sRec.nextTimerId ∧
    initState.liveTimers.length ≤ 1 :=
  ⟨(C9_capture_schedule.1 initState false).1,
   (C9_capture_schedule.2.2.1 sRec rfl).1,
   C9_capture_schedule.2.2.2 initState Relation.ReflTransGen.refl⟩

/-- C10: `endSession()` leaves the in-memory transcript log unchanged, both
when the backend `end_session` command succeeds and when it fails. -/
theorem C10_endSession_keeps_transcript (s : AppState) (env : EndEnv) :
    (endSession s env).transcript = s.transcript := by
  unfold endSession
  try dsimp only
  repeat' split
  all_goals rfl

end VenkyAI
